import Mathlib

/-!
# PocketReport — verified shallow embedding

A shallow embedding, in Lean 4, of the outline data model, the outline
serializer, the LLM retry wrapper, and the pipeline nodes' prepare/finalize
phases of the PocketReport repository (`pocketreport/utils/models.py`,
`pocketreport/utils/outline_serializer.py`, `pocketreport/utils/call_llm.py`,
`pocketreport/nodes.py`), together with theorems settling the specification's
claims about them.

Conventions:
* Python `str` is `String`, Python `Optional[str]` is `Option String`,
  Python `int` is `Int` (or `Nat` where the source only produces counters).
* Python dictionaries holding heterogeneous compartments are embedded as
  structures with `Option` fields standing for possibly-absent keys.
* Raising an exception is returning `Except.error` with the message raised.
* Phases that in Python mutate the shared store by reference are embedded in
  explicit state-passing style: they return the (possibly updated) store.
-/

/- ===================================================================
   §1  Data model — pocketreport/utils/models.py
   =================================================================== -/

/-- `models.Section`: a hierarchical section of the report outline.
A nested inductive: `subsections: List[Section]` in the source. -/
inductive Section where
  | mk (index : String) (title : String) (description : String)
       (content : Option String) (subsections : List Section)

/-- Field accessor for `Section.index`. -/
def Section.index : Section → String
  | .mk i _ _ _ _ => i

/-- Field accessor for `Section.title`. -/
def Section.title : Section → String
  | .mk _ t _ _ _ => t

/-- Field accessor for `Section.description`. -/
def Section.description : Section → String
  | .mk _ _ d _ _ => d

/-- Field accessor for `Section.content`. -/
def Section.content : Section → Option String
  | .mk _ _ _ c _ => c

/-- Field accessor for `Section.subsections`. -/
def Section.subsections : Section → List Section
  | .mk _ _ _ _ subs => subs

/-- `Section.is_leaf`: `len(self.subsections) == 0`. -/
def Section.is_leaf (s : Section) : Bool :=
  s.subsections.isEmpty

mutual

/-- `Section.flatten`: flat list of all leaf sections in depth-first order.
`if self.is_leaf(): leaves.append(self) else: for sub in self.subsections:
leaves.extend(sub.flatten())`. -/
def Section.flatten : Section → List Section
  | .mk i t d c subs =>
    if (Section.mk i t d c subs).is_leaf then [.mk i t d c subs]
    else flattenSections subs

/-- The `leaves.extend(sub.flatten())` loop over a list of sections, as used
by both `Section.flatten` and `ReportOutline.flatten`. -/
def flattenSections : List Section → List Section
  | [] => []
  | s :: rest => s.flatten ++ flattenSections rest

end

mutual

/-- `Section.get_by_index`: find a section by its exact index string. -/
def Section.get_by_index : Section → String → Option Section
  | .mk i t d c subs, idx =>
    if i = idx then some (.mk i t d c subs)
    else getByIndexSections subs idx

/-- The `for sub in self.subsections: found = sub.get_by_index(index)` loop. -/
def getByIndexSections : List Section → String → Option Section
  | [], _ => none
  | s :: rest, idx =>
    match s.get_by_index idx with
    | some found => some found
    | none => getByIndexSections rest idx

end

/-- `Section.get_heading_level`: `min(index.count('.') + 1, 6)`. -/
def Section.get_heading_level (s : Section) : Nat :=
  min ((s.index.toList.filter (· = '.')).length + 1) 6

/-- `models.ReportOutline`: the complete report outline. -/
structure ReportOutline where
  title : String
  sections : List Section

/-- `ReportOutline.flatten`: flat list of all leaf sections in depth-first
order (`for section in self.sections: leaves.extend(section.flatten())`). -/
def ReportOutline.flatten (o : ReportOutline) : List Section :=
  flattenSections o.sections

/-- `ReportOutline.get_section_by_index`. -/
def ReportOutline.get_section_by_index (o : ReportOutline) (idx : String) :
    Option Section :=
  getByIndexSections o.sections idx

/-- `models.Chapter`: legacy flat chapter record.  It also stands for the
plain four-key dict `{"index", "title", "description", "content"}` that
`to_legacy_chapters` produces, which carries exactly the same fields. -/
structure Chapter where
  index : Int
  title : String
  description : String
  content : Option String
deriving DecidableEq, Repr

/-- Python `enumerate(xs, start=k)`. -/
def enumFrom (start : Nat) : List α → List (Nat × α)
  | [] => []
  | x :: xs => (start, x) :: enumFrom (start + 1) xs

/-- `ReportOutline.to_legacy_chapters`: each *leaf* section becomes a record
with 1-based integer index (`for i, leaf in enumerate(self.flatten(),
start=1)`). -/
def ReportOutline.to_legacy_chapters (o : ReportOutline) : List Chapter :=
  (enumFrom 1 o.flatten).map fun p =>
    { index := (p.1 : Int), title := p.2.title,
      description := p.2.description, content := p.2.content }

/-- `models.LegacyReportOutline`: legacy flat outline. -/
structure LegacyReportOutline where
  title : String
  chapters : List Chapter
deriving DecidableEq

/-- `ReportOutline.to_legacy`: each *top-level* section becomes a chapter
with 1-based integer index (`for i, section in enumerate(self.sections,
start=1)`). -/
def ReportOutline.to_legacy (o : ReportOutline) : LegacyReportOutline :=
  { title := o.title
    chapters := (enumFrom 1 o.sections).map fun p =>
      { index := (p.1 : Int), title := p.2.title,
        description := p.2.description, content := p.2.content } }

/-- `LegacyReportOutline.to_hierarchical`: each chapter becomes a top-level
section with its integer index stringified and no subsections. -/
def LegacyReportOutline.to_hierarchical (l : LegacyReportOutline) :
    ReportOutline :=
  { title := l.title
    sections := l.chapters.map fun c =>
      .mk (toString c.index) c.title c.description c.content [] }

/- ===================================================================
   §2  Outline serializer — pocketreport/utils/outline_serializer.py
   =================================================================== -/

/-- A decoded YAML/JSON value: the common dictionary layer that both on-disk
formats serialize (`yaml.dump`/`json.dump`) and parse back
(`yaml.safe_load`/`json.load`). -/
inductive JValue where
  | null
  | bool (b : Bool)
  | num (n : Int)
  | str (s : String)
  | arr (items : List JValue)
  | obj (fields : List (String × JValue))

/-- Dictionary key lookup (`d[k]` / `d.get(k)`), first match wins. -/
def jLookup : List (String × JValue) → String → Option JValue
  | [], _ => none
  | (k, v) :: rest, key => if k = key then some v else jLookup rest key

/-- A value found in a field list is structurally smaller than the list. -/
theorem jLookup_sizeOf {fields : List (String × JValue)} {k : String}
    {v : JValue} (h : jLookup fields k = some v) : sizeOf v < sizeOf fields := by
  induction fields with
  | nil => simp [jLookup] at h
  | cons p rest ih =>
    obtain ⟨k', v'⟩ := p
    rw [jLookup] at h
    split at h
    · cases h
      simp
      omega
    · have := ih h
      simp
      omega

/-- Python `None`/`str` content into a decoded value (the serializers write
`"content": None`, which lands on disk as `null`). -/
def jOfOptStr : Option String → JValue
  | none => .null
  | some s => .str s

mutual

/-- `_outline_to_dict.section_to_dict`, parameterized by the value of the
deprecated `"type"` tag so the tag-independence of the reader is statable;
the source always writes `SectionType.SECTION.value` (`"section"`). -/
def sectionToDictTagged (tag : String) : Section → JValue
  | .mk i t d c subs =>
    .obj [("type", .str tag), ("index", .str i), ("title", .str t),
          ("description", .str d), ("content", jOfOptStr c),
          ("subsections", .arr (sectionsToDictTagged tag subs))]

/-- The `[section_to_dict(sub) for sub in section.subsections]` list. -/
def sectionsToDictTagged (tag : String) : List Section → List JValue
  | [] => []
  | s :: rest => sectionToDictTagged tag s :: sectionsToDictTagged tag rest

end

/-- `_outline_to_dict.section_to_dict` exactly as in the source: the tag
written is always `"section"`. -/
def section_to_dict (s : Section) : JValue :=
  sectionToDictTagged "section" s

/-- `_outline_to_dict`, tag-parameterized. -/
def outlineToDictTagged (tag : String) (o : ReportOutline) : JValue :=
  .obj [("title", .str o.title),
        ("sections", .arr (sectionsToDictTagged tag o.sections))]

/-- `_outline_to_dict` exactly as in the source. -/
def _outline_to_dict (o : ReportOutline) : JValue :=
  outlineToDictTagged "section" o

mutual

/-- `_dict_to_outline.dict_to_section`: reads `index`/`title`/`description`
(required strings), `content` (`.get`, optional string), `subsections`
(`.get` with default `[]`); the deprecated `type` field is never read.
Key or validation errors are `Except.error`. -/
def dictToSection (v : JValue) : Except String Section :=
  match v with
  | .obj fields =>
    match jLookup fields "index", jLookup fields "title",
          jLookup fields "description" with
    | some (.str i), some (.str t), some (.str d) =>
      match jLookup fields "content" with
      | none => dictToSectionSubs fields i t d none
      | some .null => dictToSectionSubs fields i t d none
      | some (.str c) => dictToSectionSubs fields i t d (some c)
      | some _ => .error "content must be a string or null"
    | _, _, _ => .error "missing or non-string index/title/description"
  | _ => .error "section is not a mapping"
termination_by sizeOf v

/-- The `subsections` part of `dict_to_section`. -/
def dictToSectionSubs (fields : List (String × JValue))
    (i t d : String) (c : Option String) : Except String Section :=
  match h : jLookup fields "subsections" with
  | none => .ok (.mk i t d c [])
  | some (.arr xs) =>
    match dictToSectionList xs with
    | .ok subs => .ok (.mk i t d c subs)
    | .error e => .error e
  | some _ => .error "subsections must be a list"
termination_by sizeOf fields
decreasing_by
  have := jLookup_sizeOf h
  simp at this ⊢
  omega

/-- The `[dict_to_section(sub) for sub in ...]` list comprehension. -/
def dictToSectionList (l : List JValue) : Except String (List Section) :=
  match l with
  | [] => .ok []
  | x :: xs =>
    match dictToSection x, dictToSectionList xs with
    | .ok s, .ok rest => .ok (s :: rest)
    | .error e, _ => .error e
    | .ok _, .error e => .error e
termination_by sizeOf l

end

/-- `_dict_to_outline`: reads `title` (required string) and `sections`
(required list). -/
def _dict_to_outline (v : JValue) : Except String ReportOutline :=
  match v with
  | .obj fields =>
    match jLookup fields "title", jLookup fields "sections" with
    | some (.str t), some (.arr xs) =>
      match dictToSectionList xs with
      | .ok secs => .ok ⟨t, secs⟩
      | .error e => .error e
    | _, _ => .error "missing or ill-typed title/sections"
  | _ => .error "outline is not a mapping"

/-- `outline_serializer.convert_hierarchical_to_legacy`: all leaf sections
become chapters with sequential 1-based integer indices. -/
def convert_hierarchical_to_legacy (o : ReportOutline) : LegacyReportOutline :=
  { title := o.title
    chapters := (enumFrom 1 o.flatten).map fun p =>
      { index := (p.1 : Int), title := p.2.title,
        description := p.2.description, content := p.2.content } }

/- ===================================================================
   §3  Retry wrapper — pocketreport/utils/call_llm.py
   =================================================================== -/

/-- The loop body of `call_llm_with_retry`.  The underlying call is an
oracle `f : attempt number (0-based) → result`; `fuel` is the number of
attempts still allowed (`max_retries - attempt`).  Returns the final
result together with the list of backoff delays slept, in order; each delay
is `2 ** attempt` time units (`time.sleep(2 ** attempt)`).  `fuel = 0`
corresponds to falling through the `for` loop to the final
`raise RuntimeError`; on the last allowed attempt
(`attempt == max_retries - 1`) a failure re-raises with no further delay. -/
def retryFrom (f : Nat → Except String α) : Nat → Nat → Except String α × List Nat
  | _, 0 => (.error "Failed to call LLM after retries", [])
  | attempt, fuel + 1 =>
    match f attempt with
    | .ok v => (.ok v, [])
    | .error e =>
      if fuel = 0 then (.error e, [])
      else
        let r := retryFrom f (attempt + 1) fuel
        (r.1, 2 ^ attempt :: r.2)

/-- `call_llm_with_retry`: `for attempt in range(max_retries): try: return
call_llm(...) except: if attempt == max_retries - 1: raise;
time.sleep(2 ** attempt)`. -/
def call_llm_with_retry (f : Nat → Except String α) (max_retries : Nat) :
    Except String α × List Nat :=
  retryFrom f 0 max_retries

/- ===================================================================
   §4  Shared store and pipeline nodes — pocketreport/nodes.py
   =================================================================== -/

/-- The `input` compartment: keys the run's caller may or may not set. -/
structure InputC where
  topic : Option String
  materials_dir : Option String
  output_dir : Option String
  cache_conversions : Option Bool
  outline_file : Option String

/-- The `materials` compartment, as written by `LoadMaterialsNode.post`
(which always sets all five keys). -/
structure MaterialsC where
  raw_content : String
  file_count : Nat
  converted_files : List String
  dir : String
  output_dir : String

/-- The `analysis` compartment, as written by `AnalystNode.post`. -/
structure AnalysisC where
  summary : String

/-- The `outline` compartment, as written by `ArchitectNode.post`.
`chapters` holds the four-key records of `to_legacy_chapters` (or, on the
legacy fallback branch, `Chapter` objects — same fields either way). -/
structure OutlineC where
  title : String
  sections : List Section
  object : Option ReportOutline
  chapters : List Chapter

/-- The `writing` compartment: the `"sections"` and `"chapters"` dicts,
which are always created together (`shared["writing"] = {"sections": {},
"chapters": {}}`). -/
structure WritingC where
  sections : List (String × String)
  chapters : List (String × String)

/-- The `output` compartment, as written by `AssembleReportNode.post`. -/
structure OutputC where
  report : String
  metadata : List (String × String)
  path : String

/-- The shared store: a mapping from the six compartment names to
compartment data; `none` is an absent key. -/
structure Shared where
  input : Option InputC
  materials : Option MaterialsC
  analysis : Option AnalysisC
  outline : Option OutlineC
  writing : Option WritingC
  output : Option OutputC

/-- `shared.get("input", {}).get(key, dflt)`. -/
def getInput (s : Shared) (f : InputC → Option α) (dflt : α) : α :=
  match s.input with
  | none => dflt
  | some i => (f i).getD dflt

/-- `shared.get("input", {}).get(key)` (no default). -/
def getInputOpt (s : Shared) (f : InputC → Option α) : Option α :=
  s.input.bind f

/-- `shared.get("materials", {}).get("raw_content", "")`. -/
def Shared.materialsRawContent (s : Shared) : String :=
  match s.materials with
  | none => ""
  | some m => m.raw_content

/-- `shared.get("analysis", {}).get("summary", "")`. -/
def Shared.analysisSummary (s : Shared) : String :=
  match s.analysis with
  | none => ""
  | some a => a.summary

/-- `shared.get("outline", {}).get("object")`. -/
def Shared.outlineObject (s : Shared) : Option ReportOutline :=
  match s.outline with
  | none => none
  | some oc => oc.object

/-- `shared.get("outline", {}).get("chapters", [])`. -/
def Shared.outlineChapters (s : Shared) : List Chapter :=
  match s.outline with
  | none => []
  | some oc => oc.chapters

/-- `shared.get("outline", {}).get("title", "Report")`. -/
def Shared.outlineTitle (s : Shared) : String :=
  match s.outline with
  | none => "Report"
  | some oc => oc.title

/-- Python string-keyed dict read with default: `d.get(k, dflt)`. -/
def dictGet (m : List (String × String)) (k : String) (dflt : String) : String :=
  match m with
  | [] => dflt
  | (k', v) :: rest => if k' = k then v else dictGet rest k dflt

/-- Python string-keyed dict write: `d[k] = v`. -/
def dictInsert (m : List (String × String)) (k v : String) :
    List (String × String) :=
  match m with
  | [] => [(k, v)]
  | (k', v') :: rest =>
    if k' = k then (k, v) :: rest else (k', v') :: dictInsert rest k v

/-- Python string slicing `s[:n]`: the first `n` characters (all of `s`
when it is shorter).  Agrees with `String.take` but is defined on the
character list so that it evaluates in proofs. -/
def pyTake (s : String) (n : Nat) : String :=
  ⟨s.data.take n⟩

/-- Python falsiness of an optional string (`not x`): absent or empty. -/
def optStrFalsy : Option String → Bool
  | none => true
  | some s => s = ""

/-- `LoadMaterialsNode.exec`'s successful result shape. -/
structure LoadExecRes where
  raw_content : String
  file_count : Nat
  converted_files : List String
  materials_dir : String
  output_dir : String

/-- `LoadMaterialsNode.prep`'s result shape. -/
structure LoadPrepRes where
  materials_dir : String
  output_dir : String
  cache_conversions : Bool

/-- `LoadMaterialsNode.prep`: reads materials/output directories and the
cache flag from `input`, with defaults.  Never raises, never writes. -/
def LoadMaterialsNode.prep (shared : Shared) :
    Except String LoadPrepRes × Shared :=
  (.ok { materials_dir := getInput shared (fun i => i.materials_dir) "./materials"
         output_dir := getInput shared (fun i => i.output_dir) "./output"
         cache_conversions := getInput shared (fun i => i.cache_conversions) true },
   shared)

/-- `LoadMaterialsNode.post`: stores the loaded materials under the
`materials` compartment (all five keys) and returns `"default"`.  Writing
`conversion_info.json` is collaborator file I/O outside the store. -/
def LoadMaterialsNode.post (shared : Shared) (exec_res : LoadExecRes) :
    Shared × String :=
  ({ shared with materials := some ({
        raw_content := exec_res.raw_content
        file_count := exec_res.file_count
        converted_files := exec_res.converted_files
        dir := exec_res.materials_dir
        output_dir := exec_res.output_dir }) },
   "default")

/-- `AnalystNode.prep`: reads `materials.raw_content`; raises `ValueError`
(the spec's `MissingDependency`) if it is empty. -/
def AnalystNode.prep (shared : Shared) : Except String String × Shared :=
  let raw_content := shared.materialsRawContent
  if raw_content = "" then
    (.error "No materials loaded. Run LoadMaterialsNode first.", shared)
  else
    (.ok raw_content, shared)

/-- `AnalystNode.post`: stores the generated summary under `analysis`. -/
def AnalystNode.post (shared : Shared) (exec_res : String) : Shared × String :=
  ({ shared with analysis := some { summary := exec_res } }, "default")

/-- `ArchitectNode.prep`'s result shape. -/
structure ArchitectPrepRes where
  topic : String
  analysis_summary : String
  outline_file : Option String

/-- `ArchitectNode.prep`: reads the topic, the analysis summary, and the
optional outline file; raises `ValueError` (the spec's `MissingDependency`)
when the summary is empty and no outline file is given. -/
def ArchitectNode.prep (shared : Shared) :
    Except String ArchitectPrepRes × Shared :=
  let topic := getInput shared (fun i => i.topic) "Academic Report"
  let analysis_summary := shared.analysisSummary
  let outline_file := getInputOpt shared (fun i => i.outline_file)
  if analysis_summary = "" && optStrFalsy outline_file then
    (.error "No analysis available. Run AnalystNode first or provide outline file.",
     shared)
  else
    (.ok { topic, analysis_summary, outline_file }, shared)

/-- `ArchitectNode.post`, successful-validation branch: stores the validated
outline's title, sections, object, and legacy chapters under `outline` and
returns `"default"`.  The legacy-fallback branch likewise writes only the
`outline` compartment; saving `outline.yaml` is collaborator I/O outside
the store. -/
def ArchitectNode.post (shared : Shared) (outline : ReportOutline) :
    Shared × String :=
  ({ shared with outline := some ({
         title := outline.title
         sections := outline.sections
         object := some outline
         chapters := outline.to_legacy_chapters }) },
   "default")

/-- One element of `WriterNode.prep`'s internal `leaf_sections` list: either
a `Section` from the hierarchical outline, or the legacy wrapper dict
`{"section": ..., "is_legacy": True, "chapter": ...}`. -/
inductive LeafItem where
  | hier (s : Section)
  | legacy (s : Section) (c : Chapter)

/-- The `Section` carried by a leaf item (`leaf` itself, or
`leaf["section"]` on the legacy branch). -/
def LeafItem.sec : LeafItem → Section
  | .hier s => s
  | .legacy s _ => s

/-- A batch item built by `WriterNode.prep` (`sec` models the `"section"`
key; `section` is a reserved word in Lean). -/
structure BatchItem where
  sec : Section
  section_path : List String
  report_title : String
  analysis_summary : String
  raw_content : String
  previous_summary : String
  section_index : Nat
  is_leaf : Bool

/-- The previous-section excerpt computed by `WriterNode.prep`'s loop body
for the item after `prev` (`leaf_sections[i-1]`; `none` models the `i = 0`
case, in which the `i > 0` guard skips the lookup).  The excerpt is read
from the store's `writing.sections` dict
(`shared["writing"]["sections"].get(str(prev_index), "")`). -/
def WriterNode.prevSummaryOf (shared : Shared) : Option LeafItem → String
  | none => ""
  | some p =>
    match shared.writing with
    | none => ""
    | some w =>
      let prev_index := p.sec.index
      let prev_content := dictGet w.sections prev_index ""
      if prev_content = "" then ""
      else
        let prev_title := p.sec.title
        let excerpt := pyTake prev_content 500
        s!"Previous section ({prev_title}): {excerpt}..."

/-- The batch-item loop of `WriterNode.prep` (`for i, leaf in
enumerate(leaf_sections)`).  `prev` is `leaf_sections[i-1]` (`none` when
`i = 0`); both the hierarchical and the legacy `_get_section_path` reduce
to `[section.title]`. -/
def WriterNode.buildBatchItems (shared : Shared)
    (report_title analysis_summary raw_content : String) :
    Nat → Option LeafItem → List LeafItem → List BatchItem
  | _, _, [] => []
  | i, prev, leaf :: rest =>
    { sec := leaf.sec
      section_path := [leaf.sec.title]
      report_title := report_title
      analysis_summary := analysis_summary
      raw_content := pyTake raw_content 10000
      previous_summary := WriterNode.prevSummaryOf shared prev
      section_index := i
      is_leaf := true } ::
      WriterNode.buildBatchItems shared report_title analysis_summary
        raw_content (i + 1) (some leaf) rest

/-- `WriterNode.prep`: flattens the hierarchical outline (or falls back to
the legacy chapters, raising `ValueError` — the spec's `MissingDependency` —
when neither exists), then prepares one batch item per leaf, in order. -/
def WriterNode.prep (shared : Shared) :
    Except String (List BatchItem) × Shared :=
  let report_title := shared.outlineTitle
  let analysis_summary := shared.analysisSummary
  let raw_content := shared.materialsRawContent
  match shared.outlineObject with
  | none =>
    let chapters := shared.outlineChapters
    if chapters.isEmpty then
      (.error "No outline available. Run ArchitectNode first.", shared)
    else
      let leaf_sections := chapters.map fun c =>
        LeafItem.legacy (.mk (toString c.index) c.title c.description none []) c
      (.ok (WriterNode.buildBatchItems shared report_title analysis_summary
              raw_content 0 none leaf_sections),
       shared)
  | some obj =>
    let leaf_sections := obj.flatten.map LeafItem.hier
    (.ok (WriterNode.buildBatchItems shared report_title analysis_summary
            raw_content 0 none leaf_sections),
     shared)

/-- The storing loop of `WriterNode.post` (`for i, section_content in
enumerate(exec_res)`): `sections[str(section.index)] = content` and
`chapters[str(i + 1)] = content`.  (If `exec_res` were longer than
`prep_res`, Python would raise `IndexError` at `prep_res[i]`; the driver
always passes lists of equal length.) -/
def WriterNode.storeResults :
    Nat → List BatchItem → List String → WritingC → WritingC
  | _, _, [], w => w
  | _, [], _ :: _, w => w
  | i, item :: items, content :: rest, w =>
    WriterNode.storeResults (i + 1) items rest
      { sections := dictInsert w.sections item.sec.index content
        chapters := dictInsert w.chapters (toString (i + 1)) content }

/-- `WriterNode.post`: merges every written section into the `writing`
compartment (creating it as `{"sections": {}, "chapters": {}}` if absent)
and returns `"default"`. -/
def WriterNode.post (shared : Shared) (prep_res : List BatchItem)
    (exec_res : List String) : Shared × String :=
  let w0 := match shared.writing with
    | none => { sections := [], chapters := [] }
    | some w => w
  ({ shared with writing := some (WriterNode.storeResults 0 prep_res exec_res w0) },
   "default")

/-- `AssembleReportNode.prep`'s result shape. -/
structure AssemblePrepRes where
  chapters_content : List (String × String)
  report_title : String
  outline : Option OutlineC
  analysis_summary : String
  output_dir : String
  topic : String

/-- `AssembleReportNode.prep`: reads the written chapters, the outline
compartment, the analysis summary, and input options; raises `ValueError`
(the spec's `MissingDependency`) when no chapters have been written. -/
def AssembleReportNode.prep (shared : Shared) :
    Except String AssemblePrepRes × Shared :=
  let chapters_content := match shared.writing with
    | none => []
    | some w => w.chapters
  let report_title := shared.outlineTitle
  let analysis_summary := shared.analysisSummary
  let output_dir := getInput shared (fun i => i.output_dir) "./output"
  let topic := getInput shared (fun i => i.topic) "Report"
  if chapters_content.isEmpty then
    (.error "No chapters written. Run WriterNode first.", shared)
  else
    (.ok { chapters_content := chapters_content
           report_title := report_title
           outline := shared.outline
           analysis_summary := analysis_summary
           output_dir := output_dir
           topic := topic },
     shared)

/-- `AssembleReportNode.exec`'s result shape. -/
structure AssembleExecRes where
  report_content : String
  metadata : List (String × String)
  report_title : String

/-- `AssembleReportNode.post`: appends the frontmatter to the report and
stores `report`, `metadata` and `path` under the `output` compartment.
`genFrontmatter`/`appendFm` model the `metadata_loader` collaborator and
`savedPath` the value returned by the `save_report` collaborator (file I/O
outside the store). -/
def AssembleReportNode.post (genFrontmatter : List (String × String) → String)
    (appendFm : String → String → String) (savedPath : String)
    (shared : Shared) (prep_res : AssemblePrepRes)
    (exec_res : AssembleExecRes) : Shared × String :=
  let frontmatter := genFrontmatter exec_res.metadata
  let final_report := appendFm frontmatter exec_res.report_content
  ({ shared with output := some ({
        report := final_report
        metadata := exec_res.metadata
        path := savedPath }) },
   "default")

/- ===================================================================
   §5  Helper lemmas
   =================================================================== -/

mutual

/-- Spec-side definition (for the refinement claims about `flatten`): the
depth-first pre-order traversal of *all* nodes of a section tree, internal
nodes included. -/
def Section.preorderNodes : Section → List Section
  | .mk i t d c subs => .mk i t d c subs :: preorderNodesList subs

/-- Spec-side: pre-order traversal of a forest, left to right. -/
def preorderNodesList : List Section → List Section
  | [] => []
  | s :: rest => s.preorderNodes ++ preorderNodesList rest

end

mutual

theorem Section.flatten_eq_filter (s : Section) :
    s.flatten = s.preorderNodes.filter Section.is_leaf := by
  match s with
  | .mk i t d c subs =>
    rw [Section.flatten, Section.preorderNodes, List.filter]
    cases h : (Section.mk i t d c subs).is_leaf with
    | true =>
      have : subs = [] := by
        have := h
        rw [Section.is_leaf, Section.subsections] at this
        exact List.isEmpty_iff.mp this
      subst this
      simp [h, preorderNodesList]
    | false =>
      simp only [h, if_false, Bool.false_eq_true]
      exact flattenSections_eq_filter subs

theorem flattenSections_eq_filter (l : List Section) :
    flattenSections l = (preorderNodesList l).filter Section.is_leaf := by
  match l with
  | [] => rfl
  | s :: rest =>
    rw [flattenSections, preorderNodesList, List.filter_append,
        Section.flatten_eq_filter s, flattenSections_eq_filter rest]

end

mutual

theorem Section.flatten_leaves (s : Section) :
    s.flatten.all Section.is_leaf = true := by
  match s with
  | .mk i t d c subs =>
    rw [Section.flatten]
    cases h : (Section.mk i t d c subs).is_leaf with
    | true => simp [h]
    | false =>
      simp only [h, if_false, Bool.false_eq_true]
      exact flattenSections_leaves subs

theorem flattenSections_leaves (l : List Section) :
    (flattenSections l).all Section.is_leaf = true := by
  match l with
  | [] => rfl
  | s :: rest =>
    rw [flattenSections, List.all_append]
    rw [Section.flatten_leaves s, flattenSections_leaves rest]
    rfl

end

theorem Section.flatten_of_leaf (s : Section) (h : s.is_leaf = true) :
    s.flatten = [s] := by
  cases s with
  | mk i t d c subs =>
    rw [Section.flatten]
    simp [h]

theorem flattenSections_of_leaves (l : List Section)
    (h : l.all Section.is_leaf = true) : flattenSections l = l := by
  induction l with
  | nil => rfl
  | cons s rest ih =>
    rw [List.all_cons, Bool.and_eq_true] at h
    rw [flattenSections, Section.flatten_of_leaf s h.1, ih h.2]
    rfl

/- ===================================================================
   §6  Claims
   =================================================================== -/

/-- **C3**: `flatten()` returns exactly the leaf sections in depth-first
pre-order left to right (it equals the leaf-filtered pre-order traversal of
all nodes, and every returned section is a leaf), an outline with no
sections yields the empty sequence, and the result is already flat
(re-flattening it is the identity); as a Lean function it is pure and
deterministic by construction. -/
theorem flatten_returns_exactly_leaf_sections (O : ReportOutline) (t : String) :
    O.flatten = (preorderNodesList O.sections).filter Section.is_leaf
    ∧ O.flatten.all Section.is_leaf = true
    ∧ (ReportOutline.mk t []).flatten = []
    ∧ flattenSections O.flatten = O.flatten :=
  ⟨flattenSections_eq_filter O.sections,
   flattenSections_leaves O.sections,
   rfl,
   flattenSections_of_leaves _ (flattenSections_leaves O.sections)⟩

theorem enumFrom_length (l : List α) : ∀ k : Nat, (enumFrom k l).length = l.length := by
  induction l with
  | nil => intro k; rfl
  | cons x xs ih =>
    intro k
    rw [enumFrom, List.length_cons, List.length_cons, ih]

theorem enumFrom_getElem? (l : List α) : ∀ (k i : Nat),
    (enumFrom k l)[i]? = (l[i]?).map (fun x => (k + i, x)) := by
  induction l with
  | nil => intro k i; simp [enumFrom]
  | cons x xs ih =>
    intro k i
    cases i with
    | zero => simp [enumFrom]
    | succ n =>
      rw [enumFrom]
      simp only [List.getElem?_cons_succ]
      rw [ih (k + 1) n]
      have h : k + 1 + n = k + (n + 1) := by omega
      rw [h]

theorem enumFrom_map_chapter_getElem? (l : List Section) (k i : Nat) :
    ((enumFrom k l).map (fun p =>
        ({ index := (p.1 : Int), title := p.2.title,
           description := p.2.description, content := p.2.content } : Chapter)))[i]?
      = (l[i]?).map (fun s =>
        ({ index := ((k + i : Nat) : Int), title := s.title,
           description := s.description, content := s.content } : Chapter)) := by
  rw [List.getElem?_map, enumFrom_getElem?]
  cases l[i]? <;> rfl

/-- A hierarchical outline whose single top-level section holds two leaf
subsections: one top-level section, two flattened leaves. -/
def nestedLeavesOutline : ReportOutline :=
  ⟨"Report",
   [.mk "1" "Chapter" "top" none
      [.mk "1.1" "First" "d1" none [], .mk "1.2" "Second" "d2" none []]]⟩

/-- **C1** counterexample: `to_legacy()` produces one chapter per *top-level*
section, not per flattened leaf, so on `nestedLeavesOutline` the legacy
result has 1 chapter while `flatten()` has 2 leaves — the claimed count
equality (and with it the claimed per-leaf correspondence) fails. -/
theorem to_legacy_chapter_count_differs_from_flatten :
    ¬ (nestedLeavesOutline.to_legacy.chapters.length
        = nestedLeavesOutline.flatten.length) := by
  decide

/-- **C1** (amended): `to_legacy()` renumbers the *top-level sections* 1..N —
legacy chapter `i` carries top-level section `i`'s title, description and
content with integer index `i` (1-based).  The flattened-leaves renumbering
the claim describes is performed by `to_legacy_chapters()`, whose `i`-th
record carries the `i`-th flattened leaf's title, description and content. -/
theorem to_legacy_numbers_top_level_sections (O : ReportOutline) (i : Nat) :
    O.to_legacy.chapters.length = O.sections.length
    ∧ O.to_legacy.chapters[i]? = (O.sections[i]?).map
        (fun s =>
          ({ index := ((i + 1 : Nat) : Int), title := s.title,
             description := s.description, content := s.content } : Chapter))
    ∧ O.to_legacy_chapters.length = O.flatten.length
    ∧ O.to_legacy_chapters[i]? = (O.flatten[i]?).map
        (fun s =>
          ({ index := ((i + 1 : Nat) : Int), title := s.title,
             description := s.description, content := s.content } : Chapter)) := by
  refine ⟨?_, ?_, ?_, ?_⟩
  · rw [ReportOutline.to_legacy, List.length_map, enumFrom_length]
  · rw [ReportOutline.to_legacy]
    have h := enumFrom_map_chapter_getElem? O.sections 1 i
    rw [Nat.add_comm 1 i] at h
    exact h
  · rw [ReportOutline.to_legacy_chapters, List.length_map, enumFrom_length]
  · rw [ReportOutline.to_legacy_chapters]
    have h := enumFrom_map_chapter_getElem? O.flatten 1 i
    rw [Nat.add_comm 1 i] at h
    exact h

theorem chapters_roundtrip (cs : List Chapter) : ∀ k : Nat,
    cs.map Chapter.index = (List.range' k cs.length).map Int.ofNat →
    (enumFrom k (cs.map (fun c =>
        Section.mk (toString c.index) c.title c.description c.content []))).map
      (fun p =>
        ({ index := (p.1 : Int), title := p.2.title,
           description := p.2.description, content := p.2.content } : Chapter))
      = cs := by
  induction cs with
  | nil => intro k _; rfl
  | cons c rest ih =>
    intro k h
    rw [List.length_cons, List.range'_succ, List.map_cons, List.map_cons] at h
    rw [List.cons.injEq] at h
    rw [List.map_cons, enumFrom, List.map_cons, ih (k + 1) h.2]
    rw [List.cons.injEq]
    refine ⟨?_, rfl⟩
    cases c with
    | mk ci ct cd cc =>
      simp only [Chapter.mk.injEq]
      refine ⟨?_, rfl, rfl, rfl⟩
      exact h.1.symm

/-- The depth-0 sections produced from legacy chapters are all leaves. -/
theorem to_hierarchical_sections_leaves (cs : List Chapter) :
    (cs.map (fun c =>
      Section.mk (toString c.index) c.title c.description c.content [])).all
        Section.is_leaf = true := by
  induction cs with
  | nil => rfl
  | cons c rest ih =>
    rw [List.map_cons, List.all_cons, ih]
    rfl

/-- **C7**: for every flat legacy outline whose chapters carry sequential
integer indices 1..N, converting to a hierarchical outline (each chapter a
depth-0 leaf section) and back via `convert_hierarchical_to_legacy` yields
the original outline: same title, and the same chapter records with indices
renumbered 1..N in flatten order (unchanged, since already sequential). -/
theorem legacy_roundtrip_preserves_sequential_outline (L : LegacyReportOutline)
    (h : L.chapters.map Chapter.index
          = (List.range' 1 L.chapters.length).map Int.ofNat) :
    convert_hierarchical_to_legacy L.to_hierarchical = L := by
  cases L with
  | mk t cs =>
    rw [convert_hierarchical_to_legacy, LegacyReportOutline.to_hierarchical]
    simp only [ReportOutline.flatten]
    rw [flattenSections_of_leaves _ (to_hierarchical_sections_leaves cs)]
    rw [LegacyReportOutline.mk.injEq]
    exact ⟨rfl, chapters_roundtrip cs 1 h⟩

/-- The two-chapter flat legacy outline of the end-to-end scenario. -/
def introMethodsLegacy : LegacyReportOutline :=
  ⟨"Paper",
   [⟨1, "Intro", "Introduce the topic", none⟩,
    ⟨2, "Methods", "Methods used", none⟩]⟩

/-- **C7** witness: the theorem applied to the concrete two-chapter outline
with indices `1, 2`; the hypothesis is discharged by evaluation. -/
theorem legacy_roundtrip_witness :
    convert_hierarchical_to_legacy introMethodsLegacy.to_hierarchical
      = introMethodsLegacy :=
  legacy_roundtrip_preserves_sequential_outline introMethodsLegacy (by decide)

mutual

theorem dictToSection_roundtrip (tag : String) (s : Section) :
    dictToSection (sectionToDictTagged tag s) = .ok s := by
  match s with
  | .mk i t d c subs =>
    rw [sectionToDictTagged]
    rw [dictToSection]
    cases c with
    | none =>
      simp only [jLookup, jOfOptStr]
      simp only [dictToSectionSubs]
      simp [jLookup, dictToSectionList_roundtrip tag subs]
    | some cs =>
      simp only [jLookup, jOfOptStr]
      simp only [dictToSectionSubs]
      simp [jLookup, dictToSectionList_roundtrip tag subs]

theorem dictToSectionList_roundtrip (tag : String) (l : List Section) :
    dictToSectionList (sectionsToDictTagged tag l) = .ok l := by
  match l with
  | [] =>
    simp [sectionsToDictTagged, dictToSectionList]
  | s :: rest =>
    rw [sectionsToDictTagged, dictToSectionList]
    rw [dictToSection_roundtrip tag s, dictToSectionList_roundtrip tag rest]

end

/-- **C4**: serializing an outline through the dictionary layer shared by
both on-disk formats (`_outline_to_dict`, encoded as nested mappings by the
YAML writer and as JSON by the JSON writer) and parsing it back
(`_dict_to_outline`) yields the outline unchanged — same title, tree shape,
and index/title/description/content at every node; and the legacy `"type"`
tag present in the serialized form is ignored on read: parsing succeeds
with the identical result for every tag value. -/
theorem outline_serialization_roundtrip (O : ReportOutline) (tag : String) :
    _dict_to_outline (_outline_to_dict O) = .ok O
    ∧ _dict_to_outline (outlineToDictTagged tag O) = .ok O := by
  have key : ∀ tg : String, _dict_to_outline (outlineToDictTagged tg O) = .ok O := by
    intro tg
    cases O with
    | mk t secs =>
      rw [outlineToDictTagged]
      simp only [_dict_to_outline, jLookup]
      simp [jLookup, dictToSectionList_roundtrip tg secs]
  exact ⟨key "section", key tag⟩

/-- **C5**: with `max_retries = 3` and an underlying call failing on the
first two attempts and succeeding on the third, `call_llm_with_retry`
returns the third attempt's result and sleeps exactly two backoff delays,
`2 ^ 0` then `2 ^ 1` time units (exponential in the 0-based attempt
number), of strictly increasing duration. -/
theorem retry_succeeds_third_attempt (f : Nat → Except String α)
    (e0 e1 : String) (v : α) (h0 : f 0 = .error e0) (h1 : f 1 = .error e1)
    (h2 : f 2 = .ok v) :
    call_llm_with_retry f 3 = (.ok v, [2 ^ 0, 2 ^ 1]) ∧ (2 ^ 0 : Nat) < 2 ^ 1 := by
  constructor
  · rw [call_llm_with_retry]
    rw [show (3 : Nat) = 2 + 1 from rfl, retryFrom, h0]
    rw [show (2 : Nat) = 1 + 1 from rfl, retryFrom, h1]
    rw [show (1 : Nat) = 0 + 1 from rfl, retryFrom, h2]
    rfl
  · decide

/-- **C5** witness: a concrete oracle failing on attempts 0 and 1 and
succeeding on attempt 2. -/
theorem retry_succeeds_third_attempt_witness :
    call_llm_with_retry
        (fun n => if n < 2 then (.error "boom" : Except String Nat) else .ok 42) 3
      = (.ok 42, [2 ^ 0, 2 ^ 1]) ∧ (2 ^ 0 : Nat) < 2 ^ 1 :=
  retry_succeeds_third_attempt _ "boom" "boom" 42 rfl rfl rfl

theorem retryFrom_all_fail (f : Nat → Except String α) (err : Nat → String) :
    ∀ (fuel a : Nat), 0 < fuel →
    (∀ i, a ≤ i → i < a + fuel → f i = .error (err i)) →
    retryFrom f a fuel
      = (.error (err (a + fuel - 1)), (List.range' a (fuel - 1)).map (2 ^ ·)) := by
  intro fuel
  induction fuel with
  | zero => intro a h; omega
  | succ n ih =>
    intro a _ hf
    rw [retryFrom]
    rw [hf a (le_refl a) (by omega)]
    cases n with
    | zero => simp
    | succ m =>
      simp only [Nat.succ_ne_zero, if_false]
      rw [ih (a + 1) (by omega) (by intro i h1 h2; exact hf i (by omega) (by omega))]
      simp only [Nat.add_sub_cancel]
      rw [List.range'_succ]
      rw [List.map_cons]
      have harith : a + 1 + (m + 1) - 1 = a + (m + 1 + 1) - 1 := by omega
      rw [harith]

/-- **C6**: when the underlying call fails on every one of the
`max_retries` attempts, `call_llm_with_retry` propagates the error of the
final attempt unchanged, produces no result, and sleeps only
`max_retries - 1` backoff delays — none after the last failure. -/
theorem retry_exhaustion_propagates_last_error (f : Nat → Except String α)
    (err : Nat → String) (n : Nat) (hn : 0 < n)
    (hf : ∀ i, i < n → f i = .error (err i)) :
    call_llm_with_retry f n
      = (.error (err (n - 1)), (List.range (n - 1)).map (2 ^ ·)) := by
  rw [call_llm_with_retry]
  rw [retryFrom_all_fail f err n 0 hn (by intro i _ h2; exact hf i (by omega))]
  rw [List.range_eq_range', Nat.zero_add]

/-- **C6** witness: a concrete oracle failing on all three attempts with
`max_retries = 3`: the third attempt's error comes back and exactly two
delays (after attempts 0 and 1) were slept. -/
theorem retry_exhaustion_witness :
    call_llm_with_retry (fun i => (.error (toString i) : Except String Nat)) 3
      = (.error (toString (3 - 1)), (List.range (3 - 1)).map (2 ^ ·)) :=
  retry_exhaustion_propagates_last_error (fun i => .error (toString i))
    toString 3 (by decide) (fun _ _ => rfl)

/-- **C8**: a dependent unit's prepare phase raises the missing-dependency
`ValueError` exactly when its required upstream compartment is absent or
empty — the analyst when no materials content is loaded, the writer when
there is neither an outline object nor legacy chapters — and conversely
does not raise when the required compartment is present and non-empty. -/
theorem prep_missing_dependency (shared : Shared) :
    ((AnalystNode.prep shared).1
        = .error "No materials loaded. Run LoadMaterialsNode first."
      ↔ shared.materialsRawContent = "")
    ∧ ((AnalystNode.prep shared).1.isOk = true
      ↔ ¬ shared.materialsRawContent = "")
    ∧ ((WriterNode.prep shared).1
        = .error "No outline available. Run ArchitectNode first."
      ↔ shared.outlineObject = none ∧ shared.outlineChapters = [])
    ∧ ((WriterNode.prep shared).1.isOk = true
      ↔ ¬ (shared.outlineObject = none ∧ shared.outlineChapters = [])) := by
  refine ⟨?_, ?_, ?_, ?_⟩
  · by_cases h : shared.materialsRawContent = "" <;>
      simp [AnalystNode.prep, h]
  · by_cases h : shared.materialsRawContent = "" <;>
      simp [AnalystNode.prep, h, Except.isOk, Except.toBool]
  · cases hobj : shared.outlineObject with
    | none =>
      by_cases hch : shared.outlineChapters.isEmpty = true
      · have he : shared.outlineChapters = [] := List.isEmpty_iff.mp hch
        simp [WriterNode.prep, hobj, hch, he]
      · have he : ¬ shared.outlineChapters = [] := by
          intro he
          exact hch (by simp [he])
        simp [WriterNode.prep, hobj, hch, he]
    | some obj => simp [WriterNode.prep, hobj]
  · cases hobj : shared.outlineObject with
    | none =>
      by_cases hch : shared.outlineChapters.isEmpty = true
      · have he : shared.outlineChapters = [] := List.isEmpty_iff.mp hch
        simp [WriterNode.prep, hobj, hch, he, Except.isOk, Except.toBool]
      · have he : ¬ shared.outlineChapters = [] := by
          intro he
          exact hch (by simp [he])
        simp [WriterNode.prep, hobj, hch, he, Except.isOk, Except.toBool]
    | some obj => simp [WriterNode.prep, hobj, Except.isOk, Except.toBool]

/-- **C10**: every pipeline unit's prepare phase leaves the shared store
exactly as it was — whether it succeeds or raises — since all store
mutation happens in the finalize phase. -/
theorem prep_leaves_store_unchanged (shared : Shared) :
    (LoadMaterialsNode.prep shared).2 = shared
    ∧ (AnalystNode.prep shared).2 = shared
    ∧ (ArchitectNode.prep shared).2 = shared
    ∧ (WriterNode.prep shared).2 = shared
    ∧ (AssembleReportNode.prep shared).2 = shared := by
  refine ⟨rfl, ?_, ?_, ?_, ?_⟩
  · simp only [AnalystNode.prep]
    split <;> rfl
  · simp only [ArchitectNode.prep]
    split <;> rfl
  · simp only [WriterNode.prep]
    split
    · split <;> rfl
    · rfl
  · simp only [AssembleReportNode.prep]
    split <;> rfl

/-- **C9**: each stage's finalize phase writes into exactly its own
compartment of the shared store — `materials` for loading, `analysis` for
the analyst, `outline` for the architect, `writing` for the writer,
`output` for assembly — and leaves every other compartment unchanged. -/
theorem post_writes_only_own_compartment
    (shared : Shared) (le : LoadExecRes) (asum : String)
    (outline : ReportOutline) (prep_res : List BatchItem)
    (exec_res : List String) (gf : List (String × String) → String)
    (af : String → String → String) (sp : String) (ap : AssemblePrepRes)
    (ae : AssembleExecRes) :
    ((LoadMaterialsNode.post shared le).1.input = shared.input
      ∧ (LoadMaterialsNode.post shared le).1.analysis = shared.analysis
      ∧ (LoadMaterialsNode.post shared le).1.outline = shared.outline
      ∧ (LoadMaterialsNode.post shared le).1.writing = shared.writing
      ∧ (LoadMaterialsNode.post shared le).1.output = shared.output
      ∧ (LoadMaterialsNode.post shared le).1.materials.isSome = true)
    ∧ ((AnalystNode.post shared asum).1.input = shared.input
      ∧ (AnalystNode.post shared asum).1.materials = shared.materials
      ∧ (AnalystNode.post shared asum).1.outline = shared.outline
      ∧ (AnalystNode.post shared asum).1.writing = shared.writing
      ∧ (AnalystNode.post shared asum).1.output = shared.output
      ∧ (AnalystNode.post shared asum).1.analysis.isSome = true)
    ∧ ((ArchitectNode.post shared outline).1.input = shared.input
      ∧ (ArchitectNode.post shared outline).1.materials = shared.materials
      ∧ (ArchitectNode.post shared outline).1.analysis = shared.analysis
      ∧ (ArchitectNode.post shared outline).1.writing = shared.writing
      ∧ (ArchitectNode.post shared outline).1.output = shared.output
      ∧ (ArchitectNode.post shared outline).1.outline.isSome = true)
    ∧ ((WriterNode.post shared prep_res exec_res).1.input = shared.input
      ∧ (WriterNode.post shared prep_res exec_res).1.materials = shared.materials
      ∧ (WriterNode.post shared prep_res exec_res).1.analysis = shared.analysis
      ∧ (WriterNode.post shared prep_res exec_res).1.outline = shared.outline
      ∧ (WriterNode.post shared prep_res exec_res).1.output = shared.output
      ∧ (WriterNode.post shared prep_res exec_res).1.writing.isSome = true)
    ∧ ((AssembleReportNode.post gf af sp shared ap ae).1.input = shared.input
      ∧ (AssembleReportNode.post gf af sp shared ap ae).1.materials = shared.materials
      ∧ (AssembleReportNode.post gf af sp shared ap ae).1.analysis = shared.analysis
      ∧ (AssembleReportNode.post gf af sp shared ap ae).1.outline = shared.outline
      ∧ (AssembleReportNode.post gf af sp shared ap ae).1.writing = shared.writing
      ∧ (AssembleReportNode.post gf af sp shared ap ae).1.output.isSome = true) :=
  ⟨⟨rfl, rfl, rfl, rfl, rfl, rfl⟩,
   ⟨rfl, rfl, rfl, rfl, rfl, rfl⟩,
   ⟨rfl, rfl, rfl, rfl, rfl, rfl⟩,
   ⟨rfl, rfl, rfl, rfl, rfl, rfl⟩,
   ⟨rfl, rfl, rfl, rfl, rfl, rfl⟩⟩

/-- The store's `writing.sections` dict, empty when the `writing`
compartment is absent (reads then fall back to the guard default `""`
either way). -/
def Shared.writingSections (s : Shared) : List (String × String) :=
  match s.writing with
  | none => []
  | some w => w.sections

/-- Each list position paired with its predecessor:
`prevs p [a, b] = [p, some a]`. -/
def prevs : Option α → List α → List (Option α)
  | _, [] => []
  | p, x :: xs => p :: prevs (some x) xs

/-- Spec-side (for the amended C2): the previous-section context excerpt as
a function of only the preceding flattened leaf and the store's
`writing.sections` compartment. -/
def storedPrevSummary (shared : Shared) : Option Section → String
  | none => ""
  | some p =>
    let c := dictGet shared.writingSections p.index ""
    if c = "" then ""
    else
      let ptitle := p.title
      let excerpt := pyTake c 500
      s!"Previous section ({ptitle}): {excerpt}..."

theorem buildBatchItems_map_sec (shared : Shared) (rt asum rc : String) :
    ∀ (leafs : List LeafItem) (i : Nat) (prev : Option LeafItem),
      (WriterNode.buildBatchItems shared rt asum rc i prev leafs).map
          (fun b => b.sec)
        = leafs.map LeafItem.sec := by
  intro leafs
  induction leafs with
  | nil => intro i prev; rfl
  | cons l rest ih =>
    intro i prev
    rw [WriterNode.buildBatchItems, List.map_cons, List.map_cons, ih]

theorem buildBatchItems_map_previous_summary (shared : Shared)
    (rt asum rc : String) :
    ∀ (leafs : List LeafItem) (i : Nat) (prev : Option LeafItem),
      (WriterNode.buildBatchItems shared rt asum rc i prev leafs).map
          (fun b => b.previous_summary)
        = (prevs (prev.map LeafItem.sec) (leafs.map LeafItem.sec)).map
            (storedPrevSummary shared) := by
  intro leafs
  induction leafs with
  | nil => intro i prev; rfl
  | cons l rest ih =>
    intro i prev
    rw [WriterNode.buildBatchItems, List.map_cons, List.map_cons, prevs,
        List.map_cons, ih]
    congr 1
    cases prev with
    | none => rfl
    | some p =>
      cases hw : shared.writing with
      | none =>
        simp [WriterNode.prevSummaryOf, storedPrevSummary,
              Shared.writingSections, hw, dictGet]
      | some w =>
        simp [WriterNode.prevSummaryOf, storedPrevSummary,
              Shared.writingSections, hw]

/-- A two-leaf outline for the writer-batch scenario. -/
def twoLeafOutline : ReportOutline :=
  ⟨"R", [.mk "1" "A" "d1" none [], .mk "2" "B" "d2" none []]⟩

/-- A store holding `twoLeafOutline` and no `writing` compartment. -/
def writerShared : Shared :=
  { input := none, materials := none, analysis := none,
    outline := some ⟨"R", twoLeafOutline.sections, some twoLeafOutline, []⟩,
    writing := none, output := none }

/-- The same store except that the shared store's `writing.sections`
compartment holds content for leaf `"1"`. -/
def writerSharedWithStore : Shared :=
  { writerShared with writing := some ⟨[("1", "stored content")], []⟩ }

/-- **C2** counterexample: at preparation time no in-memory results of the
current batch exist (no item has executed yet), and the prepared items'
previous-result excerpts change when only the shared store's `writing`
compartment changes: the excerpt is resolved from the shared store, not
from in-memory results of earlier items in the same batch. -/
theorem writer_prep_previous_summary_reads_store :
    ((WriterNode.prep writerSharedWithStore).1.toOption.map
        (fun l => l.map (fun b => b.previous_summary)))
      ≠ ((WriterNode.prep writerShared).1.toOption.map
        (fun l => l.map (fun b => b.previous_summary))) := by
  decide

/-- **C2** (amended): the writing unit's prepare phase lists sub-items in
the batch's declared flatten order, and each sub-item's previous-result
context excerpt is resolved — at preparation time, before any item of the
batch executes — from the shared store's `writing.sections` compartment,
keyed by the preceding flattened leaf's index: empty for the first item and
whenever the store holds no content for that index. -/
theorem writer_prep_order_and_store_context (shared : Shared)
    (obj : ReportOutline) (h : shared.outlineObject = some obj) :
    ∃ items, (WriterNode.prep shared).1 = .ok items
      ∧ items.map (fun b => b.sec) = obj.flatten
      ∧ items.map (fun b => b.previous_summary)
          = (prevs none obj.flatten).map (storedPrevSummary shared) := by
  refine ⟨WriterNode.buildBatchItems shared shared.outlineTitle
      shared.analysisSummary shared.materialsRawContent 0 none
      (obj.flatten.map LeafItem.hier), ?_, ?_, ?_⟩
  · simp [WriterNode.prep, h]
  · rw [buildBatchItems_map_sec, List.map_map]
    have hc : (LeafItem.sec ∘ LeafItem.hier) = (id : Section → Section) := rfl
    rw [hc, List.map_id]
  · rw [buildBatchItems_map_previous_summary, List.map_map]
    have hc : (LeafItem.sec ∘ LeafItem.hier) = (id : Section → Section) := rfl
    rw [hc, List.map_id]
    rfl

/-- **C2** witness: the amended theorem applied at the concrete store whose
`writing` compartment holds content for leaf `"1"`. -/
theorem writer_prep_order_and_store_context_witness :
    ∃ items, (WriterNode.prep writerSharedWithStore).1 = .ok items
      ∧ items.map (fun b => b.sec) = twoLeafOutline.flatten
      ∧ items.map (fun b => b.previous_summary)
          = (prevs none twoLeafOutline.flatten).map
              (storedPrevSummary writerSharedWithStore) :=
  writer_prep_order_and_store_context writerSharedWithStore twoLeafOutline rfl
